import Mathlib

/-!
# Shallow embedding of the `simple-chat-sample` racing-game server core

This file embeds the game-logic core of `src/server.js` (the complete
variant of the two logic variants in the repository) into Lean 4 and
proves the spec claims C1-C10 about it.

Modelling conventions:
* JavaScript floating-point numbers are modelled as rationals (`ℚ`); all
  arithmetic in the core is +, -, *, `Math.min`, `Math.max`, `Math.abs`
  and comparisons, so the rational embedding is exact except for the
  float rounding of literals such as `0.1`, which we take at face value
  (`1/10`).
* `getDistance(p, q) < t` (with `Math.sqrt`) is embedded as the
  equivalent squared comparison `distSq p q < t^2` (both sides are
  non-negative and squaring is monotone), avoiding irrational numbers.
* `parseFloat(v) || 0` on a telemetry field is embedded as
  `Option ℚ` + `Option.getD 0`: `none` stands for a missing or
  non-numeric field (where `parseFloat` yields `NaN`, which `|| 0`
  collapses to `0`).
* The player store `players = {}` is an insertion-ordered association
  list `List (String × Player)`; JavaScript object key insertion /
  update / `delete` semantics are embedded by `setEntry`, appending
  `++ [(k, v)]` and `removeEntry`.
* `setTimeout` callbacks are embedded as explicit pending
  `TimerAction`s recorded in the game state; a separate `Event.fire`
  step applies one pending action (the serialized scheduler may fire
  them at any later point of the event stream).
-/

/-! ## Game constants (src/server.js lines 10-15, 75-76, 84) -/

def MAX_LAP : Nat := 2

def COURSE_LENGTH_Z : ℚ := 1000

def TRACK_WIDTH_X : ℚ := 250

def GEKITOTSU_CHARGE_MAX : ℚ := 10

def ACCEL_Z_THRESHOLD : ℚ := 20

def PLAYER_COLLISION_RADIUS : ℚ := 40

/-! ## Data model -/

/-- The `status` field of a player: `'lobby' | 'playing' | 'finished'`. -/
inductive Status where
  | lobby
  | playing
  | finished
deriving DecidableEq, Repr

/-- The `mode` field of a player: `null` initially, set from the `join_game`
payload; the code only ever tests it against `'multi'`. -/
inductive Mode where
  | noneM
  | solo
  | multi
deriving DecidableEq, Repr

/-- A player record, as created in the `connection` handler
(src/server.js lines 196-209).  The `effects` object holds the single
flag `speed_x2_active`.  `finalRank` is absent (`undefined`) until
`calculateRanking` first assigns it, hence `Option`. -/
structure Player where
  id : String
  x : ℚ
  y : ℚ
  z : ℚ
  speed : ℚ
  baseSpeed : ℚ
  gekitotsuForce : ℚ
  points : ℤ
  lap : Nat
  status : Status
  mode : Mode
  speed_x2_active : Bool
  finishTime : Option ℤ
  finalRank : Option Nat
  totalPoints : ℤ
deriving DecidableEq, Repr

/-- Obstacle type tag: `'box' | 'bonus'`. -/
inductive ObsType where
  | box
  | bonus
deriving DecidableEq, Repr

/-- An obstacle (src/server.js lines 22-30).  `collided` starts
`undefined` in JS, which the guard `obs.collided === true` treats the
same as `false`, so it is embedded as a `Bool` that starts `false`.
The `effect` tag is only present on bonus obstacles. -/
structure Obstacle where
  type : ObsType
  x : ℚ
  y : ℚ
  z : ℚ
  points : ℤ
  size : ℚ
  effect : Option String
  collided : Bool
deriving DecidableEq, Repr

/-- The static obstacle list (src/server.js lines 22-30).  Box points
are 5, sizes 30 (boxes) / 20 (bonus); the bonus has no `points` field
(embedded as 0, it is never read for bonuses). -/
def initialObstacles : List Obstacle :=
  [ { type := .box, x := 100, y := 0, z := -100, points := 5, size := 30,
      effect := none, collided := false },
    { type := .box, x := -150, y := 0, z := -350, points := 5, size := 30,
      effect := none, collided := false },
    { type := .box, x := 50, y := 0, z := -600, points := 5, size := 30,
      effect := none, collided := false },
    { type := .box, x := -200, y := 0, z := -850, points := 5, size := 30,
      effect := none, collided := false },
    { type := .bonus, x := 0, y := 0, z := -500, points := 0, size := 20,
      effect := some "speed_x2", collided := false } ]

/-- One telemetry sample `{ b, g, accelerationZ }`.  `none` models a
missing or non-numeric field (`parseFloat` → `NaN`). -/
structure SensorData where
  b : Option ℚ
  g : Option ℚ
  accelerationZ : Option ℚ
deriving DecidableEq, Repr

/-- A pending `setTimeout` callback: reactivate obstacle `i`
(`obs.collided = false`, scheduled on box collision) or end the
double-speed bonus for a player (`player.effects.speed_x2_active =
false`, scheduled on bonus collision). -/
inductive TimerAction where
  | reactivate (idx : Nat)
  | expireBoost (cid : String)
deriving DecidableEq, Repr

/-- The whole mutable server state: the `players` object (insertion
ordered), the `obstacles` array's mutable `collided` flags, and the
pending `setTimeout` callbacks. -/
structure GameState where
  players : List (String × Player)
  obstacles : List Obstacle
  timers : List TimerAction
deriving DecidableEq, Repr

/-! ## Association-list helpers for the `players` object -/

/-- Read `players[cid]`: the first binding for the key, if any. -/
def lookupP (cid : String) : List (String × Player) → Option Player
  | [] => none
  | (k, v) :: rest => if k = cid then some v else lookupP cid rest

/-- Write `players[cid] = v`: replace the first binding for the key in
place (JS keeps the original key position), appending when absent. -/
def setEntry (cid : String) (v : Player) : List (String × Player) → List (String × Player)
  | [] => [(cid, v)]
  | (k, w) :: rest =>
    if k = cid then (k, v) :: rest else (k, w) :: setEntry cid v rest

/-- Run `delete players[cid]`. -/
def removeEntry (cid : String) : List (String × Player) → List (String × Player)
  | [] => []
  | (k, w) :: rest =>
    if k = cid then rest else (k, w) :: removeEntry cid rest

/-- Modify the element at an index of a list, identity out of range. -/
def modifyAt {α : Type} (i : Nat) (f : α → α) : List α → List α
  | [] => []
  | a :: rest =>
    match i with
    | 0 => f a :: rest
    | j + 1 => a :: modifyAt j f rest

/-! ## Numeric primitives

`Math.min` / `Math.max` / `Math.abs` on (non-`NaN`) numbers, written as
explicit conditionals so that every definition below evaluates by kernel
reduction. -/

/-- Embeds `Math.min`. -/
def rmin (a b : ℚ) : ℚ := if a ≤ b then a else b

/-- Embeds `Math.max`. -/
def rmax (a b : ℚ) : ℚ := if a ≤ b then b else a

/-- Embeds `Math.abs`. -/
def rabs (a : ℚ) : ℚ := if a < 0 then -a else a

/-! ## Geometry (src/server.js lines 39-54) -/

/-- Squared planar distance between two `(x, z)` points; `getDistance`
squared. -/
def distSq (x₁ z₁ x₂ z₂ : ℚ) : ℚ :=
  (x₁ - x₂) * (x₁ - x₂) + (z₁ - z₂) * (z₁ - z₂)

/-- Embeds `checkCollision(player, obs)`:
`getDistance(player, obs) < 25 + obs.size / 2`, embedded as the
equivalent squared comparison. -/
def checkCollision (p : Player) (o : Obstacle) : Bool :=
  distSq p.x p.z o.x o.z < (25 + o.size / 2) * (25 + o.size / 2)

/-! ## The sensor update, `updateGameLogic` (src/server.js lines 59-154) -/

/-- Lines 63-91: telemetry processing, charge, lateral move + clamp,
speed formula, forward motion.  `moveSpeed = 1.0`, lateral gain
`beta * moveSpeed * 0.1`; charge increment 2 capped at
`GEKITOTSU_CHARGE_MAX`; `baseSpeed = 3`; boost gives `baseSpeed * 2`,
otherwise `baseSpeed + gekitotsuForce * 0.2`; then `z -= speed`. -/
def sensorPhase (p : Player) (d : SensorData) : Player :=
  let beta := d.b.getD 0
  let currentAccelZ := rabs (d.accelerationZ.getD 0)
  let p₁ :=
    if currentAccelZ > ACCEL_Z_THRESHOLD then
      { p with gekitotsuForce := rmin (p.gekitotsuForce + 2) GEKITOTSU_CHARGE_MAX }
    else p
  let x₁ := p₁.x + beta * 1 * (1 / 10)
  let x₂ := rmax (-TRACK_WIDTH_X) (rmin TRACK_WIDTH_X x₁)
  let p₂ := { p₁ with x := x₂, baseSpeed := 3 }
  let spd :=
    if p₂.speed_x2_active then p₂.baseSpeed * 2
    else p₂.baseSpeed + p₂.gekitotsuForce * (2 / 10)
  let p₃ := { p₂ with speed := spd }
  { p₃ with z := p₃.z - p₃.speed }

/-- Lines 94-118, one obstacle: if colliding and not yet `collided`,
mark it, apply the charge-to-speed boost and drain the charge, then
box: award points and schedule reactivation; bonus with `speed_x2`
effect: set the double-speed flag, award 20 points, schedule its
expiry. -/
def obstacleStep (cid : String) (p : Player) (o : Obstacle) (idx : Nat) :
    Player × Obstacle × List TimerAction :=
  if checkCollision p o then
    if o.collided then (p, o, [])
    else
      let o₁ := { o with collided := true }
      let p₁ := { p with speed := p.speed + p.gekitotsuForce * (7 / 10),
                         gekitotsuForce := 0 }
      match o₁.type with
      | .box =>
        ({ p₁ with points := p₁.points + o₁.points }, o₁, [.reactivate idx])
      | .bonus =>
        if o₁.effect = some "speed_x2" then
          ({ p₁ with speed_x2_active := true, points := p₁.points + 20 },
           o₁, [.expireBoost cid])
        else (p₁, o₁, [])
  else (p, o, [])

/-- Embeds `obstacles.forEach((obs, index) => ...)`, threading the player and
collecting the scheduled timers; `idx` is the index of the head. -/
def obstaclePass (cid : String) (p : Player) (idx : Nat) :
    List Obstacle → Player × List Obstacle × List TimerAction
  | [] => (p, [], [])
  | o :: rest =>
    let r₁ := obstacleStep cid p o idx
    let r₂ := obstaclePass cid r₁.1 (idx + 1) rest
    (r₂.1, r₁.2.1 :: r₂.2.1, r₁.2.2 ++ r₂.2.2)

/-- Lines 120-137, the multiplayer player-player pass, one store entry:
skip self; when the other is `multi` and `playing` and within
`PLAYER_COLLISION_RADIUS`, both charges gain 2 (capped) and the
updating player's speed takes the `max(1, speed * 0.8)` penalty.
Threads the updating player through the store traversal. -/
def playersPass (cid : String) (p : Player) :
    List (String × Player) → Player × List (String × Player)
  | [] => (p, [])
  | (oid, op) :: rest =>
    if oid ≠ cid ∧ op.mode = .multi ∧ op.status = .playing ∧
        distSq p.x p.z op.x op.z < PLAYER_COLLISION_RADIUS * PLAYER_COLLISION_RADIUS then
      let p₁ := { p with
        gekitotsuForce := rmin (p.gekitotsuForce + 2) GEKITOTSU_CHARGE_MAX }
      let op₁ := { op with
        gekitotsuForce := rmin (op.gekitotsuForce + 2) GEKITOTSU_CHARGE_MAX }
      let p₂ := { p₁ with speed := rmax 1 (p₁.speed * (8 / 10)) }
      let r := playersPass cid p₂ rest
      (r.1, (oid, op₁) :: r.2)
    else
      let r := playersPass cid p rest
      (r.1, (oid, op) :: r.2)

/-- Lines 139-150, the lap check: crossing `z < -COURSE_LENGTH_Z`
increments `lap` and adds `COURSE_LENGTH_Z` back to `z`; reaching
`MAX_LAP` finishes the race and records `Date.now()` (the `now`
parameter). -/
def lapPhase (now : ℤ) (p : Player) : Player :=
  if p.z < -COURSE_LENGTH_Z then
    let p₁ := { p with lap := p.lap + 1, z := p.z + COURSE_LENGTH_Z }
    if p₁.lap ≥ MAX_LAP then
      { p₁ with status := .finished, finishTime := some now }
    else p₁
  else p

/-- The multiplayer gate around the player-player pass (line 121):
multiplayer players run `playersPass` over the store, others leave it
untouched. -/
def multiPass (cid : String) (p : Player) (gs : GameState) :
    Player × List (String × Player) :=
  if p.mode = .multi then playersPass cid p gs.players else (p, gs.players)

/-- The body of `updateGameLogic` once the guard has passed: sensor
phase, obstacle pass, multiplayer pass, lap check, store write-back
(lines 63-153).  Scheduled `setTimeout`s are appended to the pending
timers. -/
def updActive (now : ℤ) (cid : String) (d : SensorData) (gs : GameState) (p : Player) :
    GameState :=
  let p₁ := sensorPhase p d
  let r := obstaclePass cid p₁ 0 gs.obstacles
  let r₂ := multiPass cid r.1 gs
  let p₄ := lapPhase now r₂.1
  { players := setEntry cid p₄ r₂.2,
    obstacles := r.2.1,
    timers := gs.timers ++ r.2.2 }

/-- Embeds `updateGameLogic(clientId, data)` (src/server.js lines 59-154):
guard (line 61), then the active update body. -/
def updateGameLogic (now : ℤ) (cid : String) (d : SensorData) (gs : GameState) :
    GameState :=
  match lookupP cid gs.players with
  | none => gs
  | some p =>
    if p.status ≠ .playing then gs
    else updActive now cid d gs p

/-! ## Ranking, `calculateRanking` (src/server.js lines 159-184) -/

/-- The JS sort comparator (lines 167-174) as a rational: negative
means `a` sorts before `b`.  `finishTime` is `null`-coerced to 0 by
JS subtraction, hence `Option.getD 0`. -/
def rankCmp (a b : Player) : ℚ :=
  if a.status = .finished ∧ b.status ≠ .finished then -1
  else if a.status ≠ .finished ∧ b.status = .finished then 1
  else if a.status = .finished ∧ b.status = .finished then
    ((a.finishTime.getD 0 : ℤ) - b.finishTime.getD 0 : ℤ)
  else if a.lap ≠ b.lap then ((b.lap : ℤ) - a.lap : ℤ)
  else a.z - b.z

/-- JavaScript `Array.prototype.sort` with comparator `c` is a stable sort placing
`a` before `b` when `c a b < 0`.  `rankLe a b` is the induced total
transitive relation `c a b ≤ 0`; a stable sort for such a relation has
a unique output, so the stable insertion sort below produces exactly
the array `sort` produces. -/
def rankLe (a b : Player) : Bool := rankCmp a b ≤ 0

/-- Insert `a` (an element originally preceding everything in the list)
into an already sorted list, before the first element it is `rankLe`-
below-or-tied-with: the stable position. -/
def orderedInsertRank (a : Player) : List Player → List Player
  | [] => [a]
  | b :: l => if rankLe a b then a :: b :: l else b :: orderedInsertRank a l

/-- Stable insertion sort by `rankLe`. -/
def sortRank : List Player → List Player
  | [] => []
  | a :: l => orderedInsertRank a (sortRank l)

/-- Assign `finalRank = index + 1` and
`totalPoints = points + (n - index) * 100` down the sorted list
(lines 177-181); `i` is the index of the head, `n` the participant
count. -/
def assignRanks (n : Nat) : Nat → List Player → List Player
  | _, [] => []
  | i, p :: rest =>
    { p with finalRank := some (i + 1),
             totalPoints := p.points + ((n : ℤ) - i) * 100 } :: assignRanks n (i + 1) rest

/-- Embeds `calculateRanking()` (lines 159-184), as a pure function of the
`Object.values(players)` snapshot: filter `mode === 'multi' &&
status !== 'lobby'`, stable-sort by the comparator, then assign ranks
and rank points. -/
def calculateRanking (ps : List Player) : List Player :=
  let activePlayers := ps.filter fun p => p.mode = .multi ∧ p.status ≠ .lobby
  let sorted := sortRank activePlayers
  assignRanks sorted.length 0 sorted

/-! ## The event layer (src/server.js lines 188-261) -/

/-- The fresh player record created on connection (lines 196-209). -/
def initialPlayer (cid : String) : Player :=
  { id := cid, x := 0, y := 0, z := 0, speed := 0, baseSpeed := 3,
    gekitotsuForce := 0, points := 0, lap := 0, status := .lobby,
    mode := .noneM, speed_x2_active := false, finishTime := none,
    finalRank := none, totalPoints := 0 }

/-- Fire one scheduled `setTimeout` callback: box reactivation clears
the obstacle's `collided` flag; boost expiry clears the player's
`speed_x2_active` flag (a no-op when the player has left the store). -/
def applyTimer : TimerAction → GameState → GameState
  | .reactivate i, gs =>
    { gs with obstacles := modifyAt i (fun o => { o with collided := false }) gs.obstacles }
  | .expireBoost cid, gs =>
    match lookupP cid gs.players with
    | none => gs
    | some p =>
      { gs with players := setEntry cid { p with speed_x2_active := false } gs.players }

/-- An inbound event of the serialized scheduler: the four transport
events plus the firing of the pending timer at an index. -/
inductive Event where
  | connect (cid : String)
  | join (cid : String) (m : Mode)
  | sensor (now : ℤ) (cid : String) (d : SensorData)
  | disconnect (cid : String)
  | fire (i : Nat)
deriving DecidableEq, Repr

/-- One step of the serialized event loop.
`connect` (lines 195-210) creates a fresh `lobby` record if the id is
new; `join_game` (lines 219-226) resets `z`/`lap`/`points`/charge/
`finishTime`, sets `mode` and `status = 'playing'` (a no-op if the id
is not in the store, which cannot happen for a connected socket);
`sensor` (lines 237-249) runs `updateGameLogic`; `disconnect`
(lines 252-260) deletes the record; `fire i` runs and removes the
pending timer at index `i`. -/
def step : Event → GameState → GameState
  | .connect cid, gs =>
    if (lookupP cid gs.players).isSome then gs
    else { gs with players := gs.players ++ [(cid, initialPlayer cid)] }
  | .join cid m, gs =>
    match lookupP cid gs.players with
    | none => gs
    | some p =>
      let p₁ := { p with status := Status.playing, mode := m, z := 0, lap := 0,
                         points := 0, gekitotsuForce := 0, finishTime := none }
      { gs with players := setEntry cid p₁ gs.players }
  | .sensor now cid d, gs => updateGameLogic now cid d gs
  | .disconnect cid, gs => { gs with players := removeEntry cid gs.players }
  | .fire i, gs =>
    match gs.timers.get? i with
    | none => gs
    | some t => applyTimer t { gs with timers := gs.timers.eraseIdx i }

/-- The empty boot state: no players, the static obstacles, no pending
timers. -/
def initialState : GameState :=
  { players := [], obstacles := initialObstacles, timers := [] }

/-- Run a list of events from a state, first event first. -/
def run (es : List Event) (gs : GameState) : GameState :=
  match es with
  | [] => gs
  | e :: rest => run rest (step e gs)

/-- The forward order on statuses: lobby(0) → playing(1) → finished(2). -/
def statusIdx : Status → Nat
  | .lobby => 0
  | .playing => 1
  | .finished => 2

/-! ## Concrete data used by the claim theorems -/

/-- A telemetry sample whose field values `parseFloat(·) || 0` coerces:
each field is replaced by its numeric value, a missing or non-numeric
field (`none`) by `0`. -/
def normalizeSensor (d : SensorData) : SensorData :=
  { b := some (d.b.getD 0), g := some (d.g.getD 0),
    accelerationZ := some (d.accelerationZ.getD 0) }

/-- A telemetry sample with a charge spike (`|accelerationZ| = 25 > 20`)
and no tilt. -/
def spikeData : SensorData := { b := none, g := none, accelerationZ := some 25 }

/-- A telemetry sample with a pure tilt (`b = 50`), no spike. -/
def tiltData : SensorData := { b := some 50, g := none, accelerationZ := none }

/-- Connect and join as P1, then race on spike telemetry for 350 sensor
events: P1 charges up, takes the speed-x2 bonus at `z ≈ -500` (whose
5-second expiry timer never fires within the trace), wraps the course
twice and finishes. -/
def finishTrace : List Event :=
  [Event.connect "P1", Event.join "P1" Mode.multi] ++
    List.replicate 350 (Event.sensor 0 "P1" spikeData)

/-- Connect and join as P1, then tilt once: P1 drifts to `x = 5`. -/
def driftTrace : List Event :=
  [Event.connect "P1", Event.join "P1" Mode.multi, Event.sensor 0 "P1" tiltData]

/-- A freshly joined playing multiplayer player, for witnesses. -/
def samplePlayer : Player :=
  { initialPlayer "P1" with status := Status.playing, mode := Mode.multi }

/-- A one-player playing state, for witnesses. -/
def sampleState : GameState :=
  { players := [("P1", samplePlayer)], obstacles := initialObstacles, timers := [] }

/-- A one-player state whose player is still in the lobby, for witnesses. -/
def lobbyState : GameState :=
  { players := [("P1", initialPlayer "P1")], obstacles := initialObstacles, timers := [] }

/-- A playing player just past the course end, for witnesses. -/
def lapSamplePlayer : Player :=
  { initialPlayer "P1" with status := Status.playing, z := -1001 }

/-- Ranking scenario player A: finished with `finishTime = 100`. -/
def playerA : Player :=
  { id := "A", x := 0, y := 0, z := 0, speed := 0, baseSpeed := 3,
    gekitotsuForce := 0, points := 10, lap := 2, status := Status.finished,
    mode := Mode.multi, speed_x2_active := false, finishTime := some 100,
    finalRank := none, totalPoints := 0 }

/-- Ranking scenario player B: finished with `finishTime = 50`. -/
def playerB : Player :=
  { id := "B", x := 0, y := 0, z := 0, speed := 0, baseSpeed := 3,
    gekitotsuForce := 0, points := 20, lap := 2, status := Status.finished,
    mode := Mode.multi, speed_x2_active := false, finishTime := some 50,
    finalRank := none, totalPoints := 0 }

/-- Ranking scenario player C: still playing, `lap = 1`, `z = -200`. -/
def playerC : Player :=
  { id := "C", x := 0, y := 0, z := -200, speed := 0, baseSpeed := 3,
    gekitotsuForce := 0, points := 5, lap := 1, status := Status.playing,
    mode := Mode.multi, speed_x2_active := false, finishTime := none,
    finalRank := none, totalPoints := 0 }

/-- An already-collided box obstacle right on the sample player, for
witnesses. -/
def collidedObstacle : Obstacle :=
  { type := ObsType.box, x := 0, y := 0, z := 0, points := 5, size := 30,
    effect := none, collided := true }

/-- The same box obstacle, not yet collided, for witnesses. -/
def freshBoxObstacle : Obstacle :=
  { type := ObsType.box, x := 0, y := 0, z := 0, points := 5, size := 30,
    effect := none, collided := false }

/-- The player-record update the `join_game` handler performs
(src/server.js lines 220-226). -/
def joinReset (p : Player) (m : Mode) : Player :=
  { p with status := Status.playing, mode := m, z := 0, lap := 0,
           points := 0, gekitotsuForce := 0, finishTime := none }

/-- A second playing multiplayer player, for witnesses. -/
def otherPlayer : Player :=
  { initialPlayer "P2" with status := Status.playing, mode := Mode.multi }

/-- A two-player playing state, both multiplayer, for witnesses. -/
def sampleState2 : GameState :=
  { players := [("P1", samplePlayer), ("P2", otherPlayer)],
    obstacles := initialObstacles, timers := [] }

/-- State of `otherPlayer` after standing in the update of P1: only the charge has
moved (a player-player clash credit). -/
def otherAfter : Player := { otherPlayer with gekitotsuForce := 2 }

/-- State of `samplePlayer` after one spike sensor event: charge 2,
speed 3.4, z advanced by 3.4. -/
def samplePlayerAfter : Player :=
  { samplePlayer with gekitotsuForce := 2, speed := 17 / 5, z := -(17 / 5) }

/-! ## Helper lemmas: the player store -/

/-! ## Bridges from the conditional primitives to the order API -/

theorem rmin_eq_min (a b : ℚ) : rmin a b = min a b := by
  simp [rmin, min_def]

theorem rmax_eq_max (a b : ℚ) : rmax a b = max a b := by
  simp [rmax, max_def]

theorem rabs_eq_abs (a : ℚ) : rabs a = |a| := by
  rw [rabs]
  rcases lt_or_le a 0 with h | h
  · rw [if_pos h, abs_of_neg h]
  · rw [if_neg (not_lt.mpr h), abs_of_nonneg h]


theorem lookupP_setEntry_self (cid : String) (v : Player) (l : List (String × Player)) :
    lookupP cid (setEntry cid v l) = some v := by
  induction l with
  | nil => simp [setEntry, lookupP]
  | cons hd tl ih =>
    obtain ⟨k, w⟩ := hd
    by_cases h : k = cid
    · simp [setEntry, lookupP, h]
    · simp [setEntry, lookupP, h, ih]

theorem lookupP_setEntry_ne (oid cid : String) (hne : oid ≠ cid) (v : Player)
    (l : List (String × Player)) :
    lookupP oid (setEntry cid v l) = lookupP oid l := by
  have hne' : cid ≠ oid := Ne.symm hne
  induction l with
  | nil => simp [setEntry, lookupP, hne']
  | cons hd tl ih =>
    obtain ⟨k, w⟩ := hd
    by_cases h : k = cid
    · subst h
      simp [setEntry, lookupP, hne']
    · by_cases h₂ : k = oid
      · simp [setEntry, lookupP, h, h₂, hne]
      · simp [setEntry, lookupP, h, h₂, ih]

theorem lookupP_removeEntry_ne (oid cid : String) (hne : oid ≠ cid)
    (l : List (String × Player)) :
    lookupP oid (removeEntry cid l) = lookupP oid l := by
  have hne' : cid ≠ oid := Ne.symm hne
  induction l with
  | nil => simp [removeEntry]
  | cons hd tl ih =>
    obtain ⟨k, w⟩ := hd
    by_cases h : k = cid
    · subst h
      simp [removeEntry, lookupP, hne']
    · by_cases h₂ : k = oid
      · simp [removeEntry, lookupP, h, h₂, hne]
      · simp [removeEntry, lookupP, h, h₂, ih]

theorem lookupP_eq_none_of_not_mem (cid : String) (l : List (String × Player))
    (h : cid ∉ l.map Prod.fst) : lookupP cid l = none := by
  induction l with
  | nil => rfl
  | cons hd tl ih =>
    obtain ⟨k, w⟩ := hd
    simp only [List.map_cons, List.mem_cons] at h
    push_neg at h
    have hk : k ≠ cid := Ne.symm h.1
    simp [lookupP, hk, ih h.2]

theorem lookupP_removeEntry_self (cid : String) (l : List (String × Player))
    (hnd : (l.map Prod.fst).Nodup) :
    lookupP cid (removeEntry cid l) = none := by
  induction l with
  | nil => rfl
  | cons hd tl ih =>
    obtain ⟨k, w⟩ := hd
    simp only [List.map_cons, List.nodup_cons] at hnd
    by_cases h : k = cid
    · subst h
      simp only [removeEntry, if_pos rfl]
      exact lookupP_eq_none_of_not_mem k tl hnd.1
    · simp [removeEntry, lookupP, h, ih hnd.2]

theorem lookupP_append_of_some (oid : String) (l l' : List (String × Player)) (p : Player)
    (h : lookupP oid l = some p) : lookupP oid (l ++ l') = some p := by
  induction l with
  | nil => simp [lookupP] at h
  | cons hd tl ih =>
    obtain ⟨k, w⟩ := hd
    by_cases hk : k = oid
    · simp only [lookupP, if_pos hk] at h
      simp [lookupP, hk, h]
    · simp only [lookupP, if_neg hk] at h
      simp [lookupP, hk, ih h]

/-! ## Helper lemmas: the update phases -/

theorem sensorPhase_status (p : Player) (d : SensorData) :
    (sensorPhase p d).status = p.status := by
  unfold sensorPhase
  simp only []
  split <;> rfl

theorem sensorPhase_mode (p : Player) (d : SensorData) :
    (sensorPhase p d).mode = p.mode := by
  unfold sensorPhase
  simp only []
  split <;> rfl

theorem sensorPhase_charge (p : Player) (d : SensorData)
    (h0 : 0 ≤ p.gekitotsuForce) (h1 : p.gekitotsuForce ≤ GEKITOTSU_CHARGE_MAX) :
    0 ≤ (sensorPhase p d).gekitotsuForce ∧
      (sensorPhase p d).gekitotsuForce ≤ GEKITOTSU_CHARGE_MAX := by
  unfold sensorPhase
  simp only []
  split
  · simp only [rmin_eq_min]
    refine ⟨le_min (by linarith) (by norm_num [GEKITOTSU_CHARGE_MAX]), min_le_right _ _⟩
  · exact ⟨h0, h1⟩

theorem sensorPhase_x (p : Player) (d : SensorData) :
    -TRACK_WIDTH_X ≤ (sensorPhase p d).x ∧ (sensorPhase p d).x ≤ TRACK_WIDTH_X := by
  unfold sensorPhase
  simp only []
  split <;>
  · simp only [rmax_eq_max, rmin_eq_min]
    exact ⟨le_max_left _ _,
      max_le (by norm_num [TRACK_WIDTH_X]) (min_le_left _ _)⟩

theorem obstacleStep_x (cid : String) (p : Player) (o : Obstacle) (i : Nat) :
    (obstacleStep cid p o i).1.x = p.x := by
  unfold obstacleStep
  simp only []
  repeat' split
  all_goals rfl

theorem obstacleStep_status (cid : String) (p : Player) (o : Obstacle) (i : Nat) :
    (obstacleStep cid p o i).1.status = p.status := by
  unfold obstacleStep
  simp only []
  repeat' split
  all_goals rfl

theorem obstacleStep_mode (cid : String) (p : Player) (o : Obstacle) (i : Nat) :
    (obstacleStep cid p o i).1.mode = p.mode := by
  unfold obstacleStep
  simp only []
  repeat' split
  all_goals rfl

theorem obstacleStep_charge (cid : String) (p : Player) (o : Obstacle) (i : Nat)
    (h0 : 0 ≤ p.gekitotsuForce) (h1 : p.gekitotsuForce ≤ GEKITOTSU_CHARGE_MAX) :
    0 ≤ (obstacleStep cid p o i).1.gekitotsuForce ∧
      (obstacleStep cid p o i).1.gekitotsuForce ≤ GEKITOTSU_CHARGE_MAX := by
  unfold obstacleStep
  simp only []
  repeat' split
  all_goals first
    | exact ⟨h0, h1⟩
    | exact ⟨le_refl 0, by norm_num [GEKITOTSU_CHARGE_MAX]⟩

theorem obstaclePass_x : ∀ (l : List Obstacle) (cid : String) (p : Player) (i : Nat),
    (obstaclePass cid p i l).1.x = p.x
  | [], _, _, _ => rfl
  | o :: rest, cid, p, i => by
    simp only [obstaclePass]
    rw [obstaclePass_x rest cid (obstacleStep cid p o i).1 (i + 1),
      obstacleStep_x]

theorem obstaclePass_status : ∀ (l : List Obstacle) (cid : String) (p : Player) (i : Nat),
    (obstaclePass cid p i l).1.status = p.status
  | [], _, _, _ => rfl
  | o :: rest, cid, p, i => by
    simp only [obstaclePass]
    rw [obstaclePass_status rest cid (obstacleStep cid p o i).1 (i + 1),
      obstacleStep_status]

theorem obstaclePass_mode : ∀ (l : List Obstacle) (cid : String) (p : Player) (i : Nat),
    (obstaclePass cid p i l).1.mode = p.mode
  | [], _, _, _ => rfl
  | o :: rest, cid, p, i => by
    simp only [obstaclePass]
    rw [obstaclePass_mode rest cid (obstacleStep cid p o i).1 (i + 1),
      obstacleStep_mode]

theorem obstaclePass_charge : ∀ (l : List Obstacle) (cid : String) (p : Player) (i : Nat),
    0 ≤ p.gekitotsuForce → p.gekitotsuForce ≤ GEKITOTSU_CHARGE_MAX →
    0 ≤ (obstaclePass cid p i l).1.gekitotsuForce ∧
      (obstaclePass cid p i l).1.gekitotsuForce ≤ GEKITOTSU_CHARGE_MAX
  | [], _, _, _, h0, h1 => ⟨h0, h1⟩
  | o :: rest, cid, p, i, h0, h1 => by
    simp only [obstaclePass]
    have hs := obstacleStep_charge cid p o i h0 h1
    exact obstaclePass_charge rest cid (obstacleStep cid p o i).1 (i + 1) hs.1 hs.2

theorem playersPass_x : ∀ (l : List (String × Player)) (cid : String) (p : Player),
    (playersPass cid p l).1.x = p.x
  | [], _, _ => rfl
  | (oid, op) :: rest, cid, p => by
    simp only [playersPass]
    split
    · rw [playersPass_x rest]
    · rw [playersPass_x rest]

theorem playersPass_status : ∀ (l : List (String × Player)) (cid : String) (p : Player),
    (playersPass cid p l).1.status = p.status
  | [], _, _ => rfl
  | (oid, op) :: rest, cid, p => by
    simp only [playersPass]
    split
    · rw [playersPass_status rest]
    · rw [playersPass_status rest]

theorem playersPass_charge : ∀ (l : List (String × Player)) (cid : String) (p : Player),
    0 ≤ p.gekitotsuForce → p.gekitotsuForce ≤ GEKITOTSU_CHARGE_MAX →
    0 ≤ (playersPass cid p l).1.gekitotsuForce ∧
      (playersPass cid p l).1.gekitotsuForce ≤ GEKITOTSU_CHARGE_MAX
  | [], _, _, h0, h1 => ⟨h0, h1⟩
  | (oid, op) :: rest, cid, p, h0, h1 => by
    simp only [playersPass]
    split
    · refine playersPass_charge rest cid _ ?_ ?_ <;>
      · simp only [rmin_eq_min]
        first
          | exact le_min (by linarith) (by norm_num [GEKITOTSU_CHARGE_MAX])
          | exact min_le_right _ _
    · exact playersPass_charge rest cid p h0 h1

theorem lapPhase_x (now : ℤ) (p : Player) : (lapPhase now p).x = p.x := by
  unfold lapPhase
  simp only []
  repeat' split
  all_goals rfl

theorem lapPhase_charge (now : ℤ) (p : Player) :
    (lapPhase now p).gekitotsuForce = p.gekitotsuForce := by
  unfold lapPhase
  simp only []
  repeat' split
  all_goals rfl

theorem lapPhase_status (now : ℤ) (p : Player) :
    (lapPhase now p).status = p.status ∨ (lapPhase now p).status = Status.finished := by
  unfold lapPhase
  simp only []
  repeat' split
  all_goals simp

theorem sensorPhase_normalize (p : Player) (d : SensorData) :
    sensorPhase p (normalizeSensor d) = sensorPhase p d := by
  unfold sensorPhase normalizeSensor
  rcases d with ⟨b, g, az⟩
  rcases b with _ | bv <;> rcases az with _ | av <;> rfl

/-! ## Helper lemmas: the assembled update -/

theorem multiPass_fst_x (cid : String) (p : Player) (gs : GameState) :
    (multiPass cid p gs).1.x = p.x := by
  unfold multiPass
  split
  · exact playersPass_x gs.players cid p
  · rfl

theorem multiPass_fst_status (cid : String) (p : Player) (gs : GameState) :
    (multiPass cid p gs).1.status = p.status := by
  unfold multiPass
  split
  · exact playersPass_status gs.players cid p
  · rfl

theorem multiPass_fst_charge (cid : String) (p : Player) (gs : GameState)
    (h0 : 0 ≤ p.gekitotsuForce) (h1 : p.gekitotsuForce ≤ GEKITOTSU_CHARGE_MAX) :
    0 ≤ (multiPass cid p gs).1.gekitotsuForce ∧
      (multiPass cid p gs).1.gekitotsuForce ≤ GEKITOTSU_CHARGE_MAX := by
  unfold multiPass
  split
  · exact playersPass_charge gs.players cid p h0 h1
  · exact ⟨h0, h1⟩

theorem updActive_players (now : ℤ) (cid : String) (d : SensorData) (gs : GameState)
    (p : Player) :
    (updActive now cid d gs p).players =
      setEntry cid
        (lapPhase now
          (multiPass cid (obstaclePass cid (sensorPhase p d) 0 gs.obstacles).1 gs).1)
        (multiPass cid (obstaclePass cid (sensorPhase p d) 0 gs.obstacles).1 gs).2 := rfl

theorem updateGameLogic_active (now : ℤ) (cid : String) (d : SensorData) (gs : GameState)
    (p : Player) (h : lookupP cid gs.players = some p) (hs : p.status = Status.playing) :
    updateGameLogic now cid d gs = updActive now cid d gs p := by
  unfold updateGameLogic
  simp only [h]
  rw [if_neg (by simp [hs])]

theorem updActive_normalize (now : ℤ) (cid : String) (d : SensorData) (gs : GameState)
    (p : Player) :
    updActive now cid (normalizeSensor d) gs p = updActive now cid d gs p := by
  unfold updActive
  rw [sensorPhase_normalize]

/-- The guard of `updateGameLogic` (line 61): an unknown or
non-`playing` target makes the whole update the identity. -/
theorem updateGameLogic_inactive (now : ℤ) (cid : String) (d : SensorData) (gs : GameState)
    (h : lookupP cid gs.players = none ∨
      ∃ p, lookupP cid gs.players = some p ∧ p.status ≠ Status.playing) :
    updateGameLogic now cid d gs = gs := by
  unfold updateGameLogic
  rcases h with h | ⟨p, hp, hs⟩
  · rw [h]
  · rw [hp]
    simp [hs]

/-! ## Claim C4: the speed formula of the sensor update -/

/-- C4: for every player processed by the sensor update, `baseSpeed` is
set to 3 and `speed` is computed as `baseSpeed * 2` while the
double-speed boost is active (no charge contribution) and as
`baseSpeed + gekitotsuForce * 0.2` otherwise, and `z` then advances by
subtracting `speed`. -/
theorem C4_speed_formula (p : Player) (d : SensorData) :
    (sensorPhase p d).baseSpeed = 3 ∧
    (sensorPhase p d).speed =
      (if p.speed_x2_active then (sensorPhase p d).baseSpeed * 2
       else (sensorPhase p d).baseSpeed +
         (sensorPhase p d).gekitotsuForce * (2 / 10)) ∧
    (sensorPhase p d).z = p.z - (sensorPhase p d).speed := by
  unfold sensorPhase
  simp only []
  split <;> split <;> simp_all

/-! ## Claim C5: lap wrap semantics -/

/-- C5: when the updated `z` has crossed `-COURSE_LENGTH_Z`, the lap
check increments `lap` by exactly 1 and adds exactly `COURSE_LENGTH_Z`
back to `z` (a wrap preserving overshoot); otherwise it leaves both
unchanged. -/
theorem C5_lap_wrap (now : ℤ) (p : Player) :
    (p.z < -COURSE_LENGTH_Z →
      (lapPhase now p).lap = p.lap + 1 ∧
      (lapPhase now p).z = p.z + COURSE_LENGTH_Z) ∧
    (¬p.z < -COURSE_LENGTH_Z →
      (lapPhase now p).lap = p.lap ∧ (lapPhase now p).z = p.z) := by
  unfold lapPhase
  simp only []
  constructor
  · intro h
    rw [if_pos h]
    split <;> exact ⟨rfl, rfl⟩
  · intro h
    rw [if_neg h]
    exact ⟨rfl, rfl⟩

/-- Witness for C5 at a concrete crossing player. -/
theorem C5_lap_wrap_witness :
    (lapPhase 0 lapSamplePlayer).lap = lapSamplePlayer.lap + 1 ∧
    (lapPhase 0 lapSamplePlayer).z = lapSamplePlayer.z + COURSE_LENGTH_Z :=
  (C5_lap_wrap 0 lapSamplePlayer).1 (by with_unfolding_all decide)

/-! ## Claim C8: updates for unknown or inactive players are no-ops -/

/-- C8: a sensor update addressed to an identifier that is absent from
the player store, or whose player is in `lobby` or `finished` status,
changes nothing at all: the whole game state (players, obstacles,
pending timers) is returned unchanged, and (being a total function)
no error is raised. -/
theorem C8_inactive_noop (now : ℤ) (cid : String) (d : SensorData) (gs : GameState)
    (h : lookupP cid gs.players = none ∨
      ∃ p, lookupP cid gs.players = some p ∧ p.status ≠ Status.playing) :
    updateGameLogic now cid d gs = gs :=
  updateGameLogic_inactive now cid d gs h

/-- Witness for C8: a lobby player's sensor event is a no-op. -/
theorem C8_inactive_noop_witness : updateGameLogic 0 "P1" spikeData lobbyState = lobbyState :=
  C8_inactive_noop 0 "P1" spikeData lobbyState
    (Or.inr ⟨initialPlayer "P1", by with_unfolding_all decide, by with_unfolding_all decide⟩)

/-! ## Claim C9: malformed telemetry fields default to zero -/

/-- C9: a sensor update behaves exactly as if every missing or
non-numeric telemetry field (`none`, where `parseFloat` gives `NaN`)
had been replaced by `0`: the update always completes with the same
resulting state. -/
theorem C9_malformed_defaults_zero (now : ℤ) (cid : String) (d : SensorData)
    (gs : GameState) :
    updateGameLogic now cid d gs = updateGameLogic now cid (normalizeSensor d) gs := by
  unfold updateGameLogic
  cases hl : lookupP cid gs.players with
  | none => rfl
  | some p => simp only [updActive_normalize]

/-! ## Claim C6: a collided obstacle cannot trigger -/

/-- C6: while an obstacle's `collided` flag is set, processing it
during any player's update changes nothing — the player (points, speed,
charge, effects) and the obstacle are returned unchanged and no timer
is scheduled; moreover a reactivation timer is only ever scheduled for
a `box` obstacle (bonus obstacles are never reactivated). -/
theorem C6_collided_blocks (cid : String) (p : Player) (o : Obstacle) (i : Nat) :
    (o.collided = true → obstacleStep cid p o i = (p, o, [])) ∧
    (∀ j : Nat, TimerAction.reactivate j ∈ (obstacleStep cid p o i).2.2 →
      o.type = ObsType.box ∧ j = i) := by
  constructor
  · intro h
    unfold obstacleStep
    repeat' split
    all_goals rfl
  · intro j hj
    unfold obstacleStep at hj
    simp only [] at hj
    split at hj
    · split at hj
      · simp at hj
      · split at hj
        · rename_i heq
          simp only [List.mem_singleton, TimerAction.reactivate.injEq] at hj
          exact ⟨heq, hj⟩
        · split at hj <;> simp at hj
    · simp at hj

/-- Witness for C6: the already-collided box blocks a colliding player,
and a fresh box collision's scheduled timer is a box reactivation. -/
theorem C6_collided_blocks_witness :
    obstacleStep "P1" samplePlayer collidedObstacle 0 = (samplePlayer, collidedObstacle, []) ∧
    (freshBoxObstacle.type = ObsType.box ∧ 0 = 0) :=
  ⟨(C6_collided_blocks "P1" samplePlayer collidedObstacle 0).1 (by with_unfolding_all decide),
   (C6_collided_blocks "P1" samplePlayer freshBoxObstacle 0).2 0 (by with_unfolding_all decide)⟩

/-! ## Claim C7: the concrete ranking scenario -/

/-- C7: on the snapshot [A (finished at 100), B (finished at 50),
C (playing, lap 1, z = -200)], all multiplayer, the ranking calculator
orders them B, A, C, assigns `finalRank` 1, 2, 3 in that order, and
gives each participant `totalPoints = points + (3 - index) * 100`. -/
theorem C7_ranking_scenario :
    (calculateRanking [playerA, playerB, playerC]).map Player.id = ["B", "A", "C"] ∧
    (calculateRanking [playerA, playerB, playerC]).map Player.finalRank =
      [some 1, some 2, some 3] ∧
    (calculateRanking [playerA, playerB, playerC]).map Player.totalPoints =
      [playerB.points + (3 - 0) * 100, playerA.points + (3 - 1) * 100,
       playerC.points + (3 - 2) * 100] := by
  refine ⟨?_, ?_, ?_⟩ <;> with_unfolding_all rfl

/-! ## Claim C2: what a join/mode-select event resets -/

set_option maxRecDepth 100000 in
/-- C2 counterexample: after connect + join + one tilted sensor event,
P1 sits at `x = 5`; a further join/mode-select event leaves `x = 5`
instead of returning the position to the start (`x = 0`, the value a
fresh player record has): `join_game` resets `z` but not `x`. -/
theorem C2_counterexample :
    (lookupP "P1" (run driftTrace initialState).players).map Player.x = some 5 ∧
    (lookupP "P1" (step (Event.join "P1" Mode.multi)
        (run driftTrace initialState)).players).map Player.x = some 5 ∧
    (5 : ℚ) ≠ 0 ∧ (initialPlayer "P1").x = 0 := by
  refine ⟨?_, ?_, ?_, ?_⟩
  · with_unfolding_all rfl
  · with_unfolding_all rfl
  · with_unfolding_all decide
  · rfl

/-- C2 amended: a join/mode-select event for a stored player sets
status to `playing` and the chosen mode, resets `z`, `lap`, `points`,
charge and `finishTime` to their initial values, but leaves the lateral
position `x` (and `y`) unchanged — the position reset applies only to
the forward coordinate `z`. -/
theorem C2_join_reset_amended (gs : GameState) (cid : String) (m : Mode) (p : Player)
    (h : lookupP cid gs.players = some p) :
    ∃ p', lookupP cid (step (Event.join cid m) gs).players = some p' ∧
      p'.status = Status.playing ∧ p'.mode = m ∧ p'.z = 0 ∧ p'.lap = 0 ∧
      p'.points = 0 ∧ p'.gekitotsuForce = 0 ∧ p'.finishTime = none ∧
      p'.x = p.x ∧ p'.y = p.y := by
  have hmain : lookupP cid (step (Event.join cid m) gs).players = some (joinReset p m) := by
    simp only [step, h]
    exact lookupP_setEntry_self _ _ _
  exact ⟨joinReset p m, hmain, rfl, rfl, rfl, rfl, rfl, rfl, rfl, rfl, rfl⟩

/-- Witness for C2 (amended) at a concrete one-player state. -/
theorem C2_join_reset_amended_witness :
    ∃ p', lookupP "P1" (step (Event.join "P1" Mode.multi) sampleState).players = some p' ∧
      p'.status = Status.playing ∧ p'.mode = Mode.multi ∧ p'.z = 0 ∧ p'.lap = 0 ∧
      p'.points = 0 ∧ p'.gekitotsuForce = 0 ∧ p'.finishTime = none ∧
      p'.x = samplePlayer.x ∧ p'.y = samplePlayer.y :=
  C2_join_reset_amended sampleState "P1" Mode.multi samplePlayer
    (by with_unfolding_all rfl)

/-! ## Claim C3: charge and lateral-position bounds -/

/-- C3: for a stored player whose charge is within `[0, CHARGE_MAX]`
and whose `x` is within the track, a full sensor update (input
processing, obstacle pass, player-player pass, lap check) keeps the
player's charge in `[0, CHARGE_MAX]` and `x` in
`[-TRACK_WIDTH_X, TRACK_WIDTH_X]`, for every telemetry input. -/
theorem C3_bounds (now : ℤ) (cid : String) (d : SensorData) (gs : GameState) (p : Player)
    (h : lookupP cid gs.players = some p)
    (hc0 : 0 ≤ p.gekitotsuForce) (hc1 : p.gekitotsuForce ≤ GEKITOTSU_CHARGE_MAX)
    (hx0 : -TRACK_WIDTH_X ≤ p.x) (hx1 : p.x ≤ TRACK_WIDTH_X) :
    ∃ p', lookupP cid (updateGameLogic now cid d gs).players = some p' ∧
      0 ≤ p'.gekitotsuForce ∧ p'.gekitotsuForce ≤ GEKITOTSU_CHARGE_MAX ∧
      -TRACK_WIDTH_X ≤ p'.x ∧ p'.x ≤ TRACK_WIDTH_X := by
  have hsens := sensorPhase_charge p d hc0 hc1
  have hobs := obstaclePass_charge gs.obstacles cid (sensorPhase p d) 0 hsens.1 hsens.2
  by_cases hs : p.status = Status.playing
  · rw [updateGameLogic_active now cid d gs p h hs, updActive_players]
    refine ⟨_, lookupP_setEntry_self _ _ _, ?_, ?_, ?_, ?_⟩
    · rw [lapPhase_charge]
      exact (multiPass_fst_charge cid _ gs hobs.1 hobs.2).1
    · rw [lapPhase_charge]
      exact (multiPass_fst_charge cid _ gs hobs.1 hobs.2).2
    · rw [lapPhase_x, multiPass_fst_x, obstaclePass_x]
      exact (sensorPhase_x p d).1
    · rw [lapPhase_x, multiPass_fst_x, obstaclePass_x]
      exact (sensorPhase_x p d).2
  · rw [updateGameLogic_inactive now cid d gs (Or.inr ⟨p, h, hs⟩)]
    exact ⟨p, h, hc0, hc1, hx0, hx1⟩

/-- Witness for C3 at a concrete playing player and spiking sample. -/
theorem C3_bounds_witness :
    ∃ p', lookupP "P1" (updateGameLogic 0 "P1" spikeData sampleState).players = some p' ∧
      0 ≤ p'.gekitotsuForce ∧ p'.gekitotsuForce ≤ GEKITOTSU_CHARGE_MAX ∧
      -TRACK_WIDTH_X ≤ p'.x ∧ p'.x ≤ TRACK_WIDTH_X :=
  C3_bounds 0 "P1" spikeData sampleState samplePlayer
    (by with_unfolding_all rfl) (by with_unfolding_all decide)
    (by with_unfolding_all decide) (by with_unfolding_all decide)
    (by with_unfolding_all decide)

/-! ## Claim C10: a sensor update's effect on the other players -/

theorem playersPass_lookup :
    ∀ (l : List (String × Player)) (cid : String) (p : Player) (oid : String),
    lookupP oid (playersPass cid p l).2 = lookupP oid l ∨
    ∃ op, lookupP oid l = some op ∧ op.mode = Mode.multi ∧
      op.status = Status.playing ∧
      lookupP oid (playersPass cid p l).2 =
        some { op with gekitotsuForce := rmin (op.gekitotsuForce + 2) GEKITOTSU_CHARGE_MAX }
  | [], _, _, _ => Or.inl rfl
  | (k, w) :: rest, cid, p, oid => by
    simp only [playersPass]
    split
    · rename_i hcond
      by_cases hk : k = oid
      · subst hk
        right
        exact ⟨w, by simp [lookupP], hcond.2.1, hcond.2.2.1, by simp [lookupP]⟩
      · rcases playersPass_lookup rest cid { p with gekitotsuForce := rmin (p.gekitotsuForce + 2) GEKITOTSU_CHARGE_MAX, speed := rmax 1 (p.speed * (8 / 10)) } oid with h | ⟨op, h1, h2, h3, h4⟩
        · left
          simp [lookupP, hk, h]
        · right
          exact ⟨op, by simp [lookupP, hk, h1], h2, h3, by simp [lookupP, hk, h4]⟩
    · by_cases hk : k = oid
      · subst hk
        left
        simp [lookupP]
      · rcases playersPass_lookup rest cid p oid with h | ⟨op, h1, h2, h3, h4⟩
        · left
          simp [lookupP, hk, h]
        · right
          exact ⟨op, by simp [lookupP, hk, h1], h2, h3, by simp [lookupP, hk, h4]⟩

theorem multiPass_lookup (cid : String) (p : Player) (gs : GameState) (oid : String) :
    lookupP oid (multiPass cid p gs).2 = lookupP oid gs.players ∨
    (p.mode = Mode.multi ∧
      ∃ op, lookupP oid gs.players = some op ∧ op.mode = Mode.multi ∧
        op.status = Status.playing ∧
        lookupP oid (multiPass cid p gs).2 =
          some { op with gekitotsuForce := rmin (op.gekitotsuForce + 2) GEKITOTSU_CHARGE_MAX }) := by
  unfold multiPass
  split
  · rename_i hm
    rcases playersPass_lookup gs.players cid p oid with h | ⟨op, h1, h2, h3, h4⟩
    · exact Or.inl h
    · exact Or.inr ⟨hm, op, h1, h2, h3, h4⟩
  · exact Or.inl rfl

/-- C10: during a sensor update of player `cid`, every other stored
player keeps its id, position, speed, base speed, points, lap, status,
mode, effects, finish time, rank and total points; only its charge can
move, and then only when the updating player has mode `multi` and the
other player is a `multi` player with status `playing` (the
player-player collision pass). -/
theorem C10_frame (now : ℤ) (cid : String) (d : SensorData) (gs : GameState)
    (oid : String) (hne : oid ≠ cid) (op op' : Player)
    (h1 : lookupP oid gs.players = some op)
    (h2 : lookupP oid (updateGameLogic now cid d gs).players = some op') :
    op'.id = op.id ∧ op'.x = op.x ∧ op'.y = op.y ∧ op'.z = op.z ∧
    op'.speed = op.speed ∧ op'.baseSpeed = op.baseSpeed ∧
    op'.points = op.points ∧ op'.lap = op.lap ∧ op'.status = op.status ∧
    op'.mode = op.mode ∧ op'.speed_x2_active = op.speed_x2_active ∧
    op'.finishTime = op.finishTime ∧ op'.finalRank = op.finalRank ∧
    op'.totalPoints = op.totalPoints ∧
    (op'.gekitotsuForce ≠ op.gekitotsuForce →
      (∃ p, lookupP cid gs.players = some p ∧ p.mode = Mode.multi) ∧
      op.mode = Mode.multi ∧ op.status = Status.playing) := by
  cases hcid : lookupP cid gs.players with
  | none =>
    rw [updateGameLogic_inactive now cid d gs (Or.inl hcid), h1] at h2
    obtain rfl := Option.some.inj h2
    exact ⟨rfl, rfl, rfl, rfl, rfl, rfl, rfl, rfl, rfl, rfl, rfl, rfl, rfl, rfl,
      fun hx => absurd rfl hx⟩
  | some q =>
    by_cases hqs : q.status = Status.playing
    · rw [updateGameLogic_active now cid d gs q hcid hqs, updActive_players,
        lookupP_setEntry_ne oid cid hne] at h2
      rcases multiPass_lookup cid (obstaclePass cid (sensorPhase q d) 0 gs.obstacles).1
          gs oid with hml | ⟨hm, o₂, e1, e2, e3, e4⟩
      · rw [hml, h1] at h2
        obtain rfl := Option.some.inj h2
        exact ⟨rfl, rfl, rfl, rfl, rfl, rfl, rfl, rfl, rfl, rfl, rfl, rfl, rfl, rfl,
          fun hx => absurd rfl hx⟩
      · rw [h1] at e1
        obtain rfl := Option.some.inj e1
        rw [e4] at h2
        obtain rfl := Option.some.inj h2
        refine ⟨rfl, rfl, rfl, rfl, rfl, rfl, rfl, rfl, rfl, rfl, rfl, rfl, rfl, rfl,
          fun _ => ?_⟩
        have hqm : q.mode = Mode.multi := by
          rw [obstaclePass_mode, sensorPhase_mode] at hm
          exact hm
        exact ⟨⟨q, rfl, hqm⟩, e2, e3⟩
    · rw [updateGameLogic_inactive now cid d gs (Or.inr ⟨q, hcid, hqs⟩), h1] at h2
      obtain rfl := Option.some.inj h2
      exact ⟨rfl, rfl, rfl, rfl, rfl, rfl, rfl, rfl, rfl, rfl, rfl, rfl, rfl, rfl,
        fun hx => absurd rfl hx⟩

set_option maxRecDepth 100000 in
/-- Witness for C10: in the two-player state, P1's update leaves every
P2 field but the charge untouched. -/
theorem C10_frame_witness :
    otherAfter.id = otherPlayer.id ∧ otherAfter.x = otherPlayer.x ∧
    otherAfter.y = otherPlayer.y ∧ otherAfter.z = otherPlayer.z ∧
    otherAfter.speed = otherPlayer.speed ∧
    otherAfter.baseSpeed = otherPlayer.baseSpeed ∧
    otherAfter.points = otherPlayer.points ∧ otherAfter.lap = otherPlayer.lap ∧
    otherAfter.status = otherPlayer.status ∧ otherAfter.mode = otherPlayer.mode ∧
    otherAfter.speed_x2_active = otherPlayer.speed_x2_active ∧
    otherAfter.finishTime = otherPlayer.finishTime ∧
    otherAfter.finalRank = otherPlayer.finalRank ∧
    otherAfter.totalPoints = otherPlayer.totalPoints ∧
    (otherAfter.gekitotsuForce ≠ otherPlayer.gekitotsuForce →
      (∃ p, lookupP "P1" sampleState2.players = some p ∧ p.mode = Mode.multi) ∧
      otherPlayer.mode = Mode.multi ∧ otherPlayer.status = Status.playing) :=
  C10_frame 0 "P1" spikeData sampleState2 "P2" (by with_unfolding_all decide)
    otherPlayer otherAfter (by with_unfolding_all rfl) (by with_unfolding_all rfl)

/-! ## Claim C1: status transitions -/

theorem statusIdx_lapPhase (now : ℤ) (q : Player) (h : q.status = Status.playing) :
    statusIdx q.status ≤ statusIdx (lapPhase now q).status := by
  rcases lapPhase_status now q with h2 | h2
  · rw [h2, h]
  · rw [h2, h]
    simp [statusIdx]

/-- A sensor update never lowers any stored player's status: the
updating player can only move `playing → finished` (lap completion),
and the player-player pass leaves other players' statuses alone. -/
theorem updateGameLogic_status_le (now : ℤ) (cid : String) (d : SensorData)
    (gs : GameState) (oid : String) (p p' : Player)
    (h1 : lookupP oid gs.players = some p)
    (h2 : lookupP oid (updateGameLogic now cid d gs).players = some p') :
    statusIdx p.status ≤ statusIdx p'.status := by
  by_cases he : oid = cid
  · subst he
    by_cases hs : p.status = Status.playing
    · rw [updateGameLogic_active now oid d gs p h1 hs, updActive_players,
        lookupP_setEntry_self] at h2
      obtain rfl := Option.some.inj h2
      have hX : (multiPass oid (obstaclePass oid (sensorPhase p d) 0 gs.obstacles).1
          gs).1.status = Status.playing := by
        rw [multiPass_fst_status, obstaclePass_status, sensorPhase_status, hs]
      have := statusIdx_lapPhase now _ hX
      rw [hX] at this
      rw [hs]
      exact this
    · rw [updateGameLogic_inactive now oid d gs (Or.inr ⟨p, h1, hs⟩), h1] at h2
      obtain rfl := Option.some.inj h2
      exact le_refl _
  · cases hcid : lookupP cid gs.players with
    | none =>
      rw [updateGameLogic_inactive now cid d gs (Or.inl hcid), h1] at h2
      obtain rfl := Option.some.inj h2
      exact le_refl _
    | some q =>
      by_cases hqs : q.status = Status.playing
      · rw [updateGameLogic_active now cid d gs q hcid hqs, updActive_players,
          lookupP_setEntry_ne oid cid he] at h2
        rcases multiPass_lookup cid (obstaclePass cid (sensorPhase q d) 0 gs.obstacles).1
            gs oid with hml | ⟨hm, o₂, e1, e2, e3, e4⟩
        · rw [hml, h1] at h2
          obtain rfl := Option.some.inj h2
          exact le_refl _
        · rw [h1] at e1
          obtain rfl := Option.some.inj e1
          rw [e4] at h2
          obtain rfl := Option.some.inj h2
          exact le_refl _
      · rw [updateGameLogic_inactive now cid d gs (Or.inr ⟨q, hcid, hqs⟩), h1] at h2
        obtain rfl := Option.some.inj h2
        exact le_refl _

/-- C1 (amended): under `connect`, `sensor`, `disconnect` and timer
events, a stored player's status only ever moves forward along
lobby → playing → finished; a `join`/mode-select event instead always
sets the player's status to `playing`, which moves a `finished` player
backward to `playing` (the reset-on-join, see the counterexample). -/
theorem C1_status_forward_amended (gs : GameState)
    (hnd : (gs.players.map Prod.fst).Nodup) (e : Event) (cid : String) (p p' : Player)
    (h1 : lookupP cid gs.players = some p)
    (h2 : lookupP cid (step e gs).players = some p') :
    statusIdx p.status ≤ statusIdx p'.status ∨
      ∃ c m, e = Event.join c m ∧ p'.status = Status.playing := by
  cases e with
  | connect c =>
    left
    simp only [step] at h2
    split at h2
    · rw [h1] at h2
      obtain rfl := Option.some.inj h2
      exact le_refl _
    · simp only [] at h2
      rw [lookupP_append_of_some cid gs.players _ p h1] at h2
      obtain rfl := Option.some.inj h2
      exact le_refl _
  | join c m =>
    simp only [step] at h2
    cases hc : lookupP c gs.players with
    | none =>
      rw [hc] at h2
      left
      rw [h1] at h2
      obtain rfl := Option.some.inj h2
      exact le_refl _
    | some q =>
      rw [hc] at h2
      simp only [] at h2
      by_cases he : cid = c
      · subst he
        rw [lookupP_setEntry_self] at h2
        obtain rfl := Option.some.inj h2
        right
        exact ⟨cid, m, rfl, rfl⟩
      · rw [lookupP_setEntry_ne cid c he] at h2
        left
        rw [h1] at h2
        obtain rfl := Option.some.inj h2
        exact le_refl _
  | sensor now c d =>
    left
    exact updateGameLogic_status_le now c d gs cid p p' h1 h2
  | disconnect c =>
    left
    simp only [step] at h2
    by_cases he : cid = c
    · subst he
      rw [lookupP_removeEntry_self cid gs.players hnd] at h2
      cases h2
    · rw [lookupP_removeEntry_ne cid c he] at h2
      rw [h1] at h2
      obtain rfl := Option.some.inj h2
      exact le_refl _
  | fire i =>
    left
    simp only [step] at h2
    cases ht : gs.timers.get? i with
    | none =>
      rw [ht] at h2
      rw [h1] at h2
      obtain rfl := Option.some.inj h2
      exact le_refl _
    | some t =>
      rw [ht] at h2
      cases t with
      | reactivate j =>
        simp only [applyTimer] at h2
        rw [h1] at h2
        obtain rfl := Option.some.inj h2
        exact le_refl _
      | expireBoost c =>
        simp only [applyTimer] at h2
        cases hc : lookupP c gs.players with
        | none =>
          rw [hc] at h2
          rw [h1] at h2
          obtain rfl := Option.some.inj h2
          exact le_refl _
        | some q =>
          rw [hc] at h2
          simp only [] at h2
          by_cases he : cid = c
          · subst he
            rw [lookupP_setEntry_self] at h2
            obtain rfl := Option.some.inj h2
            rw [h1] at hc
            obtain rfl := Option.some.inj hc
            exact le_refl _
          · rw [lookupP_setEntry_ne cid c he] at h2
            rw [h1] at h2
            obtain rfl := Option.some.inj h2
            exact le_refl _

set_option maxRecDepth 100000 in
/-- Witness for C1 (amended): one spike sensor event on the one-player
state keeps P1's status at `playing`. -/
theorem C1_status_forward_amended_witness :
    statusIdx samplePlayer.status ≤ statusIdx samplePlayerAfter.status ∨
      ∃ c m, Event.sensor 0 "P1" spikeData = Event.join c m ∧
        samplePlayerAfter.status = Status.playing :=
  C1_status_forward_amended sampleState (by with_unfolding_all decide)
    (Event.sensor 0 "P1" spikeData) "P1" samplePlayer samplePlayerAfter
    (by with_unfolding_all rfl) (by with_unfolding_all rfl)

set_option maxRecDepth 4000000 in
/-- C1 counterexample: the claim as stated fails on a reachable trace.
After `finishTrace` (connect, join, 350 sensor events) P1 has raced two
laps and is `finished`; one further join/mode-select event then moves
P1 from `finished` back to `playing` — a backward status transition
(`statusIdx playing < statusIdx finished`). -/
theorem C1_counterexample :
    (lookupP "P1" (run finishTrace initialState).players).map Player.status =
      some Status.finished ∧
    (lookupP "P1" (step (Event.join "P1" Mode.multi)
        (run finishTrace initialState)).players).map Player.status =
      some Status.playing ∧
    statusIdx Status.playing < statusIdx Status.finished := by
  refine ⟨?_, ?_, ?_⟩
  · with_unfolding_all rfl
  · with_unfolding_all rfl
  · with_unfolding_all decide
